import Mathlib

/-!
Shallow embedding of `src/packages/utils/src/useSubscription.ts`.

The file keeps three module-level records keyed by a subscription hash
(`firestoreUnsubscribes`, `queryCacheUnsubscribes`, `eventCount`), a
single-resolution promise (the pending-result slot with `resolvePromise` /
`rejectPromise`), a query-cache event listener installed by the second
`useEffect`, and a one-shot (`onlyOnce`) fetch path in the first `useEffect`.

The embedding below translates those pieces directly:
records become `String → Option _` maps (JS `delete` maps the key to `none`),
the promise becomes `SlotState` with idempotent settle operations, calls to
external collaborators (`subscribeFn`, the stored unsubscribe handles,
`queryClient.setQueryData`, `queryClient.invalidateQueries`) are tracked as
counters/logs in `BridgeState`, and each callback body of the source becomes a
state-transition function.
-/

/-- Payload values delivered by the subscription (`TData | null` in the
source): `none` models `null`/`undefined`, `some n` a proper value, with
`some 0` the falsy proper value, mirroring JS truthiness for numbers. -/
abbrev Data := Option Nat

/-- JS truthiness of a payload: `null`/`undefined` and `0` are falsy. -/
def truthyData : Data → Bool
  | none => false
  | some n => n != 0

/-- The expression `data || null` in the subscription callback (line 170). -/
def jsOrNull (d : Data) : Data := if truthyData d then d else none

/-- JS truthiness of the value read from `eventCount[hash]`:
`!!eventCount[subscriptionHash]` is `false` for an absent entry and for `0`. -/
def truthyCount : Option Nat → Bool
  | none => false
  | some n => n != 0

/-- State of the pending-result slot: the `result` promise created in the
`useMemo` block (lines 86-101) with its captured `resolvePromise` and
`rejectPromise`. A JS promise settles at most once; later settle calls are
silently ignored. Errors are abstracted as numeric codes. -/
inductive SlotState where
  | pending
  | resolvedWith (d : Data)
  | rejectedWith (e : Nat)
deriving DecidableEq

/-- Effect of calling `resolvePromise d` on the slot: settles a pending
promise, leaves an already-settled one unchanged. -/
def resolvePromise (d : Data) : SlotState → SlotState
  | .pending => .resolvedWith d
  | st => st

/-- Effect of calling `rejectPromise e` on the slot. -/
def rejectPromise (e : Nat) : SlotState → SlotState
  | .pending => .rejectedWith e
  | st => st

/-- A JS `Record<string, T>`: reading a missing key gives `undefined`
(`none`), `delete` maps the key to `none`. -/
abbrev SMap (α : Type) := String → Option α

/-- Point update of a record: assignment when `v = some _`, `delete` when
`v = none`. -/
def SMap.set {α : Type} (m : SMap α) (k : String) (v : Option α) : SMap α :=
  fun k' => if k' = k then v else m k'

/-- The empty record. -/
def SMap.empty {α : Type} : SMap α := fun _ => none

/-- The mutable state the hook's callbacks operate on, together with an
observation log of the calls made to external collaborators.

* `firestoreUnsubscribes`, `queryCacheUnsubscribes`, `eventCount` are the
  three module-level records of the source (lines 33-35); handles are
  identified by the numeric id assigned when they were created.
* `slot` is the pending-result slot of the current generation.
* `cache` is the query-cache entry for the hook's `queryKey`
  (`none` = no entry; `some d` = `setQueryData` stored `d`).
* `openCount` counts invocations of `subscribeFn` (subscription opens); a
  newly stored firestore handle gets the current `openCount` as its id.
* `fsUnsubCalls` / `qcUnsubCalls` log the handle ids of invoked firestore
  unsubscribe handles / query-cache listener unsubscribes.
* `qcRegCount` counts `queryCache.subscribe` registrations; a newly stored
  cache-listener handle gets the current `qcRegCount` as its id.
* `invalidateCalls` counts `queryClient.invalidateQueries` calls
  (the `result.cancel` affordance, lines 92-94). -/
@[ext] structure BridgeState where
  firestoreUnsubscribes : SMap Nat
  queryCacheUnsubscribes : SMap Nat
  eventCount : SMap Nat
  slot : SlotState
  cache : Option Data
  openCount : Nat
  fsUnsubCalls : List Nat
  qcUnsubCalls : List Nat
  qcRegCount : Nat
  invalidateCalls : Nat

/-- Fresh state: empty records, pending slot, empty cache, no calls made. -/
def initialState : BridgeState :=
  { firestoreUnsubscribes := SMap.empty
    queryCacheUnsubscribes := SMap.empty
    eventCount := SMap.empty
    slot := .pending
    cache := none
    openCount := 0
    fsUnsubCalls := []
    qcUnsubCalls := []
    qcRegCount := 0
    invalidateCalls := 0 }

/-- Observed event count for a hash: every read site of `eventCount[hash]` in
the source coalesces an absent entry to a falsy/zero value (`??= 0`, `!!`,
`=== 1`), so an absent entry is observed as `0`. -/
def eventCountOf (h : String) (s : BridgeState) : Nat := (s.eventCount h).getD 0

/-- `firestoreUnsubscribe(subscriptionHash)` (source lines 48-55): invoke the
stored handle when present (every stored handle is a function returned by
`subscribeFn`, so the `typeof === "function"` guard passes), then delete both
the handle entry and the event counter for the hash. -/
def firestoreUnsubscribe (h : String) (s : BridgeState) : BridgeState :=
  let s1 :=
    match s.firestoreUnsubscribes h with
    | some handle => { s with fsUnsubCalls := handle :: s.fsUnsubCalls }
    | none => s
  { s1 with
    firestoreUnsubscribes := s1.firestoreUnsubscribes.set h none
    eventCount := s1.eventCount.set h none }

/-- `queryCacheUnsubscribe(subscriptionHash)` (source lines 57-63): when a
listener handle is stored, invoke it and delete the entry; otherwise no-op. -/
def queryCacheUnsubscribe (h : String) (s : BridgeState) : BridgeState :=
  match s.queryCacheUnsubscribes h with
  | some handle =>
      { s with
        qcUnsubCalls := handle :: s.qcUnsubCalls
        queryCacheUnsubscribes := s.queryCacheUnsubscribes.set h none }
  | none => s

/-- Failure mode of a delivery: the only fallible operation in the
subscription callback is the external `queryClient.setQueryData` call. -/
inductive DeliveryError where
  | cacheWriteFailed
deriving DecidableEq

/-- The async callback handed to `subscribeFn` (source lines 166-174), run on
one pushed payload `d`. `writeOk` is the outcome of the external
`queryClient.setQueryData` call when it is reached: when it throws, the async
callback's promise rejects with nothing attached to observe it, which the
first component reports.

    eventCount[subscriptionHash] ??= 0;
    eventCount[subscriptionHash]++;
    if (eventCount[subscriptionHash] === 1) { resolvePromise(data || null); return; }
    queryClient.setQueryData(queryKey, data); -/
def deliverEvent (h : String) (d : Data) (writeOk : Bool) (s : BridgeState) :
    Option DeliveryError × BridgeState :=
  let c := (s.eventCount h).getD 0 + 1
  let s1 := { s with eventCount := s.eventCount.set h (some c) }
  if c = 1 then
    (none, { s1 with slot := resolvePromise (jsOrNull d) s1.slot })
  else if writeOk then
    (none, { s1 with cache := some d })
  else
    (some .cacheWriteFailed, s1)

/-- A delivery whose cache write (if any) succeeds. -/
def onSubscriptionEvent (h : String) (d : Data) (s : BridgeState) : BridgeState :=
  (deliverEvent h d true s).2

/-- The query-cache lifecycle events the listener switches on (source lines
141-175). Events whose `query.queryHash` differs from the hook's query hash
are filtered out before the switch (line 138) and other event types fall
through the switch; both leave the state untouched, so only these three are
modelled. `observerRemoved` carries `query.getObserversCount()`, the observer
count resulting from the removal. -/
inductive CacheEvent where
  | queryRemoved
  | observerRemoved (observersCount : Nat)
  | observerAdded
deriving DecidableEq

/-- Body of the listener registered with `queryCache.subscribe` (source lines
137-176), for events matching the hook's query hash:

    const observersCount = query.getObserversCount();
    const isSubscribedToFirestore = !!firestoreUnsubscribes[subscriptionHash];
    switch (type) {
      case "queryRemoved":
        queryCacheUnsubscribe(subscriptionHash);
        firestoreUnsubscribe(subscriptionHash);
        break;
      case "observerRemoved":
        if (observersCount !== 0) { return; }
        firestoreUnsubscribe(subscriptionHash);
        break;
      case "observerAdded":
        if (isSubscribedToFirestore) {
          const cachedData = queryClient.getQueryData(queryKey);
          const hasData = !!eventCount[subscriptionHash];
          if (hasData) { resolvePromise(cachedData ?? null); }
          return;
        }
        firestoreUnsubscribes[subscriptionHash] = subscribeFn(...);
        break;
    } -/
def onCacheEvent (h : String) (ev : CacheEvent) (s : BridgeState) : BridgeState :=
  let isSubscribedToFirestore := (s.firestoreUnsubscribes h).isSome
  match ev with
  | .queryRemoved => firestoreUnsubscribe h (queryCacheUnsubscribe h s)
  | .observerRemoved observersCount =>
      if observersCount ≠ 0 then s else firestoreUnsubscribe h s
  | .observerAdded =>
      if isSubscribedToFirestore then
        let cachedData := s.cache.getD none
        let hasData := truthyCount (s.eventCount h)
        if hasData then { s with slot := resolvePromise cachedData s.slot } else s
      else
        { s with
          firestoreUnsubscribes := s.firestoreUnsubscribes.set h (some s.openCount)
          openCount := s.openCount + 1 }

/-- Process a sequence of query-cache events in delivery order. -/
def runCacheEvents (h : String) (evs : List CacheEvent) (s : BridgeState) :
    BridgeState :=
  evs.foldl (fun st ev => onCacheEvent h ev st) s

/-- Synchronous body of the second `useEffect` (source lines 129-137) up to
the listener registration: skip when `onlyOnce` or disabled, skip when a
listener for the hash is already registered, otherwise register one. -/
def setupCacheListener (onlyOnce enabled : Bool) (h : String) (s : BridgeState) :
    BridgeState :=
  if onlyOnce || !enabled then s
  else if (s.queryCacheUnsubscribes h).isSome then s
  else
    { s with
      queryCacheUnsubscribes := s.queryCacheUnsubscribes.set h (some s.qcRegCount)
      qcRegCount := s.qcRegCount + 1 }

/-- The error message thrown by the first `useEffect` (source line 106). -/
def fetchFnErrorMsg : String := "You must specify fetchFn if using onlyOnce mode."

/-- Synchronous body of the first `useEffect` (source lines 101-127).
Returns the raised configuration error (if any) together with the state after
the body ran: when `onlyOnce` is off or the hook is disabled it returns early;
when no `fetchFn` was supplied it throws before touching any state; otherwise
it starts `fetchFn()`, whose settlement is modelled by `onFetchSettled`. -/
def runOnlyOnceEffect (onlyOnce enabled hasFetchFn : Bool) (s : BridgeState) :
    Option String × BridgeState :=
  if !onlyOnce || !enabled then (none, s)
  else if !hasFetchFn then (some fetchFnErrorMsg, s)
  else (none, s)

/-- How the `fetchFn()` promise of the one-shot path settles. -/
inductive FetchOutcome where
  | value (d : Data)
  | failure (e : Nat)
deriving DecidableEq

/-- The `then`/`catch` continuations of the one-shot fetch (source lines
110-123), with `cancelled` the value of the cancellation flag at the moment
the promise settles (the cleanup function sets it to `true`, line 125). -/
def onFetchSettled (cancelled : Bool) (out : FetchOutcome) (s : BridgeState) :
    BridgeState :=
  if cancelled then s
  else
    match out with
    | .value d => { s with slot := resolvePromise d s.slot }
    | .failure e => { s with slot := rejectPromise e s.slot }

/-- A concrete subscription hash used by the witnesses. -/
def kQ1 : String := "subQ1"

example : (onCacheEvent kQ1 .observerAdded initialState).openCount = 1 := by decide
example :
    (onSubscriptionEvent kQ1 (some 5)
      (onCacheEvent kQ1 .observerAdded initialState)).slot
      = .resolvedWith (some 5) := by decide

/-! ## Helper lemmas -/

theorem SMap.set_get {α : Type} (m : SMap α) (k : String) (v : Option α) :
    m.set k v k = v := by
  simp [SMap.set]

theorem SMap.set_get_ne {α : Type} (m : SMap α) (k k' : String) (v : Option α)
    (hk : k' ≠ k) : m.set k v k' = m k' := by
  simp [SMap.set, hk]

theorem SMap.set_eq_self {α : Type} {m : SMap α} {k : String} {v : Option α}
    (hv : m k = v) : m.set k v = m := by
  funext k'
  by_cases hk : k' = k
  · rw [SMap.set, if_pos hk, hk, hv]
  · rw [SMap.set, if_neg hk]

theorem runCacheEvents_nil (h : String) (s : BridgeState) :
    runCacheEvents h [] s = s := rfl

theorem runCacheEvents_cons (h : String) (e : CacheEvent) (evs : List CacheEvent)
    (s : BridgeState) :
    runCacheEvents h (e :: evs) s = runCacheEvents h evs (onCacheEvent h e s) := rfl

/-- An attach signal arriving while a handle is stored for `h` leaves the
open count and the handle record untouched (both branches of the
`isSubscribedToFirestore` case only touch the slot). -/
theorem onCacheEvent_observerAdded_of_subscribed (h : String) (s : BridgeState)
    (hs : (s.firestoreUnsubscribes h).isSome = true) :
    (onCacheEvent h .observerAdded s).openCount = s.openCount ∧
    (onCacheEvent h .observerAdded s).firestoreUnsubscribes = s.firestoreUnsubscribes := by
  simp only [onCacheEvent, hs, if_true]
  split <;> exact ⟨rfl, rfl⟩

/-- Attach signals while a handle is stored never change the open count or
the handle record, over any number of repetitions. -/
theorem runCacheEvents_adds_of_subscribed (h : String) (m : Nat) :
    ∀ s : BridgeState, (s.firestoreUnsubscribes h).isSome = true →
      (runCacheEvents h (List.replicate m .observerAdded) s).openCount = s.openCount ∧
      (runCacheEvents h (List.replicate m .observerAdded) s).firestoreUnsubscribes
        = s.firestoreUnsubscribes := by
  induction m with
  | zero => intro s _; exact ⟨rfl, rfl⟩
  | succ m ih =>
    intro s hs
    rw [List.replicate_succ, runCacheEvents_cons]
    obtain ⟨hoc, hmap⟩ := onCacheEvent_observerAdded_of_subscribed h s hs
    obtain ⟨hoc2, hmap2⟩ := ih (onCacheEvent h .observerAdded s) (by rw [hmap]; exact hs)
    exact ⟨by rw [hoc2, hoc], by rw [hmap2, hmap]⟩

/-! ## Claim theorems -/

/-- C1: starting from a state with no handle entry for the identity, any
nonempty sequence of consumer-attach (`observerAdded`) signals with no
intervening detach-to-zero or removal invokes the subscribe factory exactly
once (`openCount` rises by exactly 1), and afterwards exactly one stored
handle — one live subscription — exists for the identity. -/
theorem observerAdded_opens_exactly_once (h : String) (s : BridgeState) (n : Nat)
    (habs : s.firestoreUnsubscribes h = none) (hn : 1 ≤ n) :
    (runCacheEvents h (List.replicate n .observerAdded) s).openCount
      = s.openCount + 1 ∧
    ((runCacheEvents h (List.replicate n .observerAdded) s).firestoreUnsubscribes h).isSome
      = true := by
  obtain ⟨m, rfl⟩ : ∃ m, n = m + 1 := ⟨n - 1, (Nat.succ_pred_eq_of_pos hn).symm⟩
  rw [List.replicate_succ, runCacheEvents_cons]
  have hopen : (onCacheEvent h .observerAdded s).openCount = s.openCount + 1 ∧
      ((onCacheEvent h .observerAdded s).firestoreUnsubscribes h).isSome = true := by
    simp [onCacheEvent, habs, SMap.set]
  obtain ⟨hoc, hsome⟩ := hopen
  obtain ⟨hoc2, hmap2⟩ := runCacheEvents_adds_of_subscribed h m _ hsome
  exact ⟨by rw [hoc2, hoc], by rw [hmap2]; exact hsome⟩

/-- Witness for C1: three attach signals on a fresh state open exactly one
subscription. -/
theorem observerAdded_opens_exactly_once_witness :
    (runCacheEvents kQ1 (List.replicate 3 .observerAdded) initialState).openCount
      = initialState.openCount + 1 ∧
    ((runCacheEvents kQ1 (List.replicate 3 .observerAdded)
        initialState).firestoreUnsubscribes kQ1).isSome = true :=
  observerAdded_opens_exactly_once kQ1 initialState 3 rfl (by decide)

/-- C2: every delivery on an identity strictly increments that identity's
event counter; when the prior count is zero (first event) the payload is fed
to `resolvePromise` and the cache is untouched, and when the prior count is
nonzero (subsequent event) the payload is written to the cache store and the
slot is untouched. -/
theorem deliverEvent_counts_and_routes (h : String) (d : Data) (s : BridgeState) :
    eventCountOf h (onSubscriptionEvent h d s) = eventCountOf h s + 1 ∧
    (onSubscriptionEvent h d s).eventCount h = some (eventCountOf h s + 1) ∧
    (onSubscriptionEvent h d s).slot
      = (if eventCountOf h s = 0 then resolvePromise (jsOrNull d) s.slot else s.slot) ∧
    (onSubscriptionEvent h d s).cache
      = (if eventCountOf h s = 0 then s.cache else some d) := by
  by_cases hg : (s.eventCount h).getD 0 = 0 <;>
    simp [onSubscriptionEvent, deliverEvent, eventCountOf, SMap.set, hg]

/-- C3: an attach signal arriving while a subscription is open (a handle is
stored) and at least one event has been recorded does not open a new
subscription and changes no registry state; it only feeds the cached value
for the query key (`getQueryData(queryKey) ?? null`) to `resolvePromise`. -/
theorem observerAdded_lateJoin_replays_cache (h : String) (s : BridgeState)
    (hsub : (s.firestoreUnsubscribes h).isSome = true)
    (hdata : truthyCount (s.eventCount h) = true) :
    (onCacheEvent h .observerAdded s).openCount = s.openCount ∧
    (onCacheEvent h .observerAdded s).firestoreUnsubscribes = s.firestoreUnsubscribes ∧
    (onCacheEvent h .observerAdded s).eventCount = s.eventCount ∧
    (onCacheEvent h .observerAdded s).cache = s.cache ∧
    (onCacheEvent h .observerAdded s).slot
      = resolvePromise (s.cache.getD none) s.slot := by
  simp [onCacheEvent, hsub, hdata]

/-- State after: fresh attach (opens the subscription), then one delivered
event with payload `7`; used as a concrete late-joiner scenario. -/
def lateJoinState : BridgeState :=
  onSubscriptionEvent kQ1 (some 7) (onCacheEvent kQ1 .observerAdded initialState)

/-- Witness for C3: in the concrete late-joiner scenario a further attach
leaves registry state unchanged and replays the cached value. -/
theorem observerAdded_lateJoin_replays_cache_witness :
    (onCacheEvent kQ1 .observerAdded lateJoinState).openCount
      = lateJoinState.openCount ∧
    (onCacheEvent kQ1 .observerAdded lateJoinState).firestoreUnsubscribes
      = lateJoinState.firestoreUnsubscribes ∧
    (onCacheEvent kQ1 .observerAdded lateJoinState).eventCount
      = lateJoinState.eventCount ∧
    (onCacheEvent kQ1 .observerAdded lateJoinState).cache = lateJoinState.cache ∧
    (onCacheEvent kQ1 .observerAdded lateJoinState).slot
      = resolvePromise (lateJoinState.cache.getD none) lateJoinState.slot :=
  observerAdded_lateJoin_replays_cache kQ1 lateJoinState (by decide) (by decide)

/-- C4: an `observerRemoved` signal runs the teardown (`firestoreUnsubscribe`)
exactly when the resulting observer count is zero and otherwise changes
nothing; the teardown invokes the stored unsubscribe handle when one is
present (`Option.toList` of the entry is prepended to the call log) and
deletes the handle entry and the event counter. -/
theorem observerRemoved_teardown_iff_zero (h : String) (n : Nat) (s : BridgeState) :
    onCacheEvent h (.observerRemoved n) s
      = (if n = 0 then firestoreUnsubscribe h s else s) ∧
    (firestoreUnsubscribe h s).firestoreUnsubscribes h = none ∧
    (firestoreUnsubscribe h s).eventCount h = none ∧
    (firestoreUnsubscribe h s).fsUnsubCalls
      = (s.firestoreUnsubscribes h).toList ++ s.fsUnsubCalls := by
  refine ⟨?_, ?_, ?_, ?_⟩
  · by_cases hn : n = 0 <;> simp [onCacheEvent, hn]
  · cases hf : s.firestoreUnsubscribes h <;> simp [firestoreUnsubscribe, hf, SMap.set]
  · cases hf : s.firestoreUnsubscribes h <;> simp [firestoreUnsubscribe, hf, SMap.set]
  · cases hf : s.firestoreUnsubscribes h <;> simp [firestoreUnsubscribe, hf]

/-- After a `queryRemoved` teardown, no cache-listener handle is stored. -/
theorem queryRemoved_qc_none (h : String) (s : BridgeState) :
    (onCacheEvent h .queryRemoved s).queryCacheUnsubscribes h = none := by
  show (firestoreUnsubscribe h (queryCacheUnsubscribe h s)).queryCacheUnsubscribes h
    = none
  have hq : (queryCacheUnsubscribe h s).queryCacheUnsubscribes h = none := by
    cases hc : s.queryCacheUnsubscribes h <;>
      simp [queryCacheUnsubscribe, hc, SMap.set]
  cases hf : (queryCacheUnsubscribe h s).firestoreUnsubscribes h <;>
    simp [firestoreUnsubscribe, hf, hq]

/-- After a `queryRemoved` teardown, no firestore handle is stored. -/
theorem queryRemoved_fs_none (h : String) (s : BridgeState) :
    (onCacheEvent h .queryRemoved s).firestoreUnsubscribes h = none := by
  show (firestoreUnsubscribe h (queryCacheUnsubscribe h s)).firestoreUnsubscribes h
    = none
  cases hf : (queryCacheUnsubscribe h s).firestoreUnsubscribes h <;>
    simp [firestoreUnsubscribe, hf, SMap.set]

/-- After a `queryRemoved` teardown, no event counter is stored. -/
theorem queryRemoved_ec_none (h : String) (s : BridgeState) :
    (onCacheEvent h .queryRemoved s).eventCount h = none := by
  show (firestoreUnsubscribe h (queryCacheUnsubscribe h s)).eventCount h = none
  cases hf : (queryCacheUnsubscribe h s).firestoreUnsubscribes h <;>
    simp [firestoreUnsubscribe, hf, SMap.set]

/-- C5: a `queryRemoved` (eviction) signal clears all bookkeeping for the
identity — the cache-lifecycle listener handle, the firestore unsubscribe
handle, and the event counter — with no condition on the observer count, and
running the same teardown a second time is a no-op (it returns the state
unchanged). -/
theorem queryRemoved_clears_all_and_idempotent (h : String) (s : BridgeState) :
    (onCacheEvent h .queryRemoved s).queryCacheUnsubscribes h = none ∧
    (onCacheEvent h .queryRemoved s).firestoreUnsubscribes h = none ∧
    (onCacheEvent h .queryRemoved s).eventCount h = none ∧
    onCacheEvent h .queryRemoved (onCacheEvent h .queryRemoved s)
      = onCacheEvent h .queryRemoved s := by
  refine ⟨queryRemoved_qc_none h s, queryRemoved_fs_none h s,
    queryRemoved_ec_none h s, ?_⟩
  have hq := queryRemoved_qc_none h s
  have hf := queryRemoved_fs_none h s
  have he := queryRemoved_ec_none h s
  show firestoreUnsubscribe h
      (queryCacheUnsubscribe h (onCacheEvent h .queryRemoved s))
    = onCacheEvent h .queryRemoved s
  rw [show queryCacheUnsubscribe h (onCacheEvent h .queryRemoved s)
      = onCacheEvent h .queryRemoved s from by simp [queryCacheUnsubscribe, hq]]
  show firestoreUnsubscribe h (onCacheEvent h .queryRemoved s)
    = onCacheEvent h .queryRemoved s
  simp only [firestoreUnsubscribe, hf]
  rw [SMap.set_eq_self hf, SMap.set_eq_self he]

/-- C6: selecting one-shot mode while enabled without supplying a fetch
function makes the first effect throw the configuration error synchronously,
and the state it returns alongside is exactly the input state — no registry
or counter entry is touched by the failing path. -/
theorem onlyOnce_without_fetchFn_errors (s : BridgeState) :
    runOnlyOnceEffect true true false s = (some fetchFnErrorMsg, s) := rfl

/-- C7: when the cancellation flag is set by the time the one-shot fetch
promise settles, the settlement changes nothing: whichever way the promise
settles, neither `resolvePromise` nor `rejectPromise` runs and the state
(slot and cache included) is returned unchanged. -/
theorem cancelled_fetch_settlement_is_noop (out : FetchOutcome) (s : BridgeState) :
    onFetchSettled true out s = s := rfl

/-- Resolving a slot never produces (or removes) a rejection: the slot is in
the rejected state after `resolvePromise` exactly when it already was. -/
theorem resolvePromise_rejected_iff (d : Data) (st : SlotState) (e : Nat) :
    resolvePromise d st = .rejectedWith e ↔ st = .rejectedWith e := by
  cases st <;> simp [resolvePromise]

/-- C8: the delivery path can fail only at the cache write, which is reached
only when the event counter was already nonzero, i.e. after a first event
resolved the slot — so a pre-resolution delivery failure cannot occur, making
the claim's first conditional hold vacuously; when a delivery does fail the
error is dropped: the slot is left exactly as it was. Moreover the delivery
path never rejects the slot (it is rejected afterwards exactly when it was
before), rejection being reserved to the one-shot fetch path. -/
theorem deliveryError_only_after_data_and_dropped (h : String) (d : Data)
    (writeOk : Bool) (s : BridgeState) :
    ((deliverEvent h d writeOk s).1.isSome = true →
      1 ≤ eventCountOf h s ∧ (deliverEvent h d writeOk s).2.slot = s.slot) ∧
    (∀ e : Nat, (deliverEvent h d writeOk s).2.slot = .rejectedWith e
      ↔ s.slot = .rejectedWith e) := by
  by_cases hg : (s.eventCount h).getD 0 = 0
  · refine ⟨fun herr => absurd herr (by simp [deliverEvent, hg]), fun e => ?_⟩
    simp [deliverEvent, hg, resolvePromise_rejected_iff]
  · have hc : ¬((s.eventCount h).getD 0 + 1 = 1) := by omega
    cases writeOk
    · refine ⟨fun _ => ⟨by unfold eventCountOf; omega, ?_⟩, fun e => ?_⟩ <;>
        simp [deliverEvent, hc]
    · refine ⟨fun herr => absurd herr (by simp [deliverEvent, hc]), fun e => ?_⟩
      simp [deliverEvent, hc]

/-- Witness for C8: in the concrete scenario where one event was already
delivered, a failing second delivery leaves the slot untouched. -/
theorem deliveryError_only_after_data_and_dropped_witness :
    1 ≤ eventCountOf kQ1 lateJoinState ∧
    (deliverEvent kQ1 (some 9) false lateJoinState).2.slot = lateJoinState.slot :=
  (deliveryError_only_after_data_and_dropped kQ1 (some 9) false lateJoinState).1
    (by decide)

/-- C9: an attach on an identity with no handle entry (and hence, per the
teardown discipline, no counter entry) invokes the factory and stores the
fresh handle, and leaves the event counter absent, so its observed value —
what every read site of `eventCount[hash]` sees — is zero until the first
event arrives. -/
theorem open_stores_handle_counter_zero (h : String) (s : BridgeState)
    (hfs : s.firestoreUnsubscribes h = none) (hec : s.eventCount h = none) :
    (onCacheEvent h .observerAdded s).firestoreUnsubscribes h = some s.openCount ∧
    (onCacheEvent h .observerAdded s).openCount = s.openCount + 1 ∧
    (onCacheEvent h .observerAdded s).eventCount h = none ∧
    eventCountOf h (onCacheEvent h .observerAdded s) = 0 := by
  simp [onCacheEvent, hfs, SMap.set, eventCountOf, hec]

/-- Witness for C9: the first attach on a fresh state. -/
theorem open_stores_handle_counter_zero_witness :
    (onCacheEvent kQ1 .observerAdded initialState).firestoreUnsubscribes kQ1
      = some initialState.openCount ∧
    (onCacheEvent kQ1 .observerAdded initialState).openCount
      = initialState.openCount + 1 ∧
    (onCacheEvent kQ1 .observerAdded initialState).eventCount kQ1 = none ∧
    eventCountOf kQ1 (onCacheEvent kQ1 .observerAdded initialState) = 0 :=
  open_stores_handle_counter_zero kQ1 initialState rfl rfl

/-- C10: a detach-to-zero teardown deletes exactly the firestore handle and
the event counter of the identity (the records equal the originals with that
one key deleted) and touches nothing else: the cache-listener record, its
registration counter and call log, the slot, the cache, and the open count
are all unchanged. Consequently a subsequent re-attach effect run finds the
existing cache listener and registers no second one (the setup is a no-op). -/
theorem detachToZero_keeps_cache_listener (h : String) (onlyOnce enabled : Bool)
    (s : BridgeState) (hqc : (s.queryCacheUnsubscribes h).isSome = true) :
    (onCacheEvent h (.observerRemoved 0) s).queryCacheUnsubscribes
      = s.queryCacheUnsubscribes ∧
    (onCacheEvent h (.observerRemoved 0) s).qcRegCount = s.qcRegCount ∧
    (onCacheEvent h (.observerRemoved 0) s).qcUnsubCalls = s.qcUnsubCalls ∧
    (onCacheEvent h (.observerRemoved 0) s).firestoreUnsubscribes
      = s.firestoreUnsubscribes.set h none ∧
    (onCacheEvent h (.observerRemoved 0) s).eventCount = s.eventCount.set h none ∧
    (onCacheEvent h (.observerRemoved 0) s).slot = s.slot ∧
    (onCacheEvent h (.observerRemoved 0) s).cache = s.cache ∧
    (onCacheEvent h (.observerRemoved 0) s).openCount = s.openCount ∧
    setupCacheListener onlyOnce enabled h (onCacheEvent h (.observerRemoved 0) s)
      = onCacheEvent h (.observerRemoved 0) s := by
  have hred : onCacheEvent h (.observerRemoved 0) s = firestoreUnsubscribe h s := by
    simp [onCacheEvent]
  have hqcmap : (firestoreUnsubscribe h s).queryCacheUnsubscribes
      = s.queryCacheUnsubscribes := by
    cases hf : s.firestoreUnsubscribes h <;> simp [firestoreUnsubscribe, hf]
  have hsetup : setupCacheListener onlyOnce enabled h (firestoreUnsubscribe h s)
      = firestoreUnsubscribe h s := by
    unfold setupCacheListener
    split
    · rfl
    · rw [hqcmap, if_pos hqc]
  rw [hred]
  refine ⟨hqcmap, ?_, ?_, ?_, ?_, ?_, ?_, ?_, hsetup⟩ <;>
    cases hf : s.firestoreUnsubscribes h <;> simp [firestoreUnsubscribe, hf]

/-- State with a registered cache listener for `kQ1` and an open, delivered
subscription; used as the concrete detach scenario. -/
def detachScenarioState : BridgeState :=
  onSubscriptionEvent kQ1 (some 7)
    (onCacheEvent kQ1 .observerAdded (setupCacheListener false true kQ1 initialState))

/-- Witness for C10 at the concrete detach scenario. -/
theorem detachToZero_keeps_cache_listener_witness :
    (onCacheEvent kQ1 (.observerRemoved 0) detachScenarioState).queryCacheUnsubscribes
      = detachScenarioState.queryCacheUnsubscribes ∧
    (onCacheEvent kQ1 (.observerRemoved 0) detachScenarioState).qcRegCount
      = detachScenarioState.qcRegCount ∧
    (onCacheEvent kQ1 (.observerRemoved 0) detachScenarioState).qcUnsubCalls
      = detachScenarioState.qcUnsubCalls ∧
    (onCacheEvent kQ1 (.observerRemoved 0) detachScenarioState).firestoreUnsubscribes
      = detachScenarioState.firestoreUnsubscribes.set kQ1 none ∧
    (onCacheEvent kQ1 (.observerRemoved 0) detachScenarioState).eventCount
      = detachScenarioState.eventCount.set kQ1 none ∧
    (onCacheEvent kQ1 (.observerRemoved 0) detachScenarioState).slot
      = detachScenarioState.slot ∧
    (onCacheEvent kQ1 (.observerRemoved 0) detachScenarioState).cache
      = detachScenarioState.cache ∧
    (onCacheEvent kQ1 (.observerRemoved 0) detachScenarioState).openCount
      = detachScenarioState.openCount ∧
    setupCacheListener false true kQ1
        (onCacheEvent kQ1 (.observerRemoved 0) detachScenarioState)
      = onCacheEvent kQ1 (.observerRemoved 0) detachScenarioState :=
  detachToZero_keeps_cache_listener kQ1 false true detachScenarioState (by decide)
